import Mathlib

/-!
Shallow embedding of exp/lmdbsync/lmdbsync.go (package lmdbsync), the
synchronization layer over an LMDB environment handle.  Go errors are
modelled as Option Err (none is the nil error), Go durations as Int
(nanoseconds, as time.Duration), and the process-wide mutable defaults
DefaultRetryResize and DefaultDelayRepeatResize as an explicit Globals
value threaded to every function that reads them.  The retry loop of
runRetry is modelled as a trace-producing function returning the final
error together with the list of map-size-adoption calls it performed
(one entry per setMapSize call, holding the delay passed to it); the
txnlock and the sizes passed to the underlying engine are modelled
separately, as a single-caller lock-state machine, for the SetMapSize
path.  Line numbers in the comments refer to lmdbsync.go.
-/

namespace Lmdbsync

/-- Errors the engine and the transaction bodies can return: the
distinguished map-resized failure, or any other failure, identified by a
code so that propagation can be observed to preserve identity. -/
inductive Err where
  | mapResized
  | other (code : Nat)
deriving DecidableEq

/-- Modelled from the spec: lmdb.IsMapResized of the lmdb package, which is
not part of this repository.  It recognises the one distinguished failure
value meaning the map was resized by another actor (spec section 6);
the nil error is not that failure. -/
def IsMapResized : Option Err → Bool
  | some Err.mapResized => true
  | _ => false

/-- Process-wide defaults of the package: DefaultRetryResize (line 47) and
DefaultDelayRepeatResize (line 51).  They are mutable package variables in
the source; the model threads their current values explicitly. -/
structure Globals where
  DefaultRetryResize : Int
  DefaultDelayRepeatResize : Int
deriving DecidableEq

/-- Initial values of the package variables: DefaultRetryResize = 2 and
DefaultDelayRepeatResize = time.Millisecond = 1000000 nanoseconds. -/
def stdGlobals : Globals := ⟨2, 1000000⟩

/-- Env (lines 67 to 75): the RetryResize override, the DelayRepeatResize
override (none when the Go field is nil), and the noLock flag.  The
underlying lmdb.Env handle and the txnlock are modelled at the call sites
that use them. -/
structure Env where
  RetryResize : Int
  DelayRepeatResize : Option (Nat → Int)
  noLock : Bool

/-- getRetryResize (lines 249 to 254): the RetryResize override when it is
nonzero, otherwise the process-wide default. -/
def getRetryResize (g : Globals) (r : Env) : Int :=
  if r.RetryResize ≠ 0 then r.RetryResize else g.DefaultRetryResize

/-- getDelayRepeatResize (lines 256 to 261): the DelayRepeatResize override
applied to the retry index when set, otherwise the process-wide default. -/
def getDelayRepeatResize (g : Globals) (r : Env) (i : Nat) : Int :=
  match r.DelayRepeatResize with
  | some f => f i
  | none => g.DefaultDelayRepeatResize

/-- retryResized (lines 263 to 288): decides whether runRetry repeats
attempt i that returned err, performing the map-size adoption
setMapSize(0, delay) of line 283 when it does.  The returned list holds
the delay of each adoption call performed: one entry when retrying, none
otherwise.  The engine is always handed the sentinel size 0 (see
setMapSize below) and the adoption is modelled as succeeding, so the
escalation arm of line 285 is not taken.  Line 280 of the source invokes
getDelayRepeatResize with no argument although the method is declared
with the attempt-index parameter (line 256), which Go rejects as a
compile error; the model applies it to i as declared. -/
def retryResized (g : Globals) (r : Env) (i : Nat) (err : Option Err) :
    Bool × List Int :=
  if IsMapResized err = false then (false, [])
  else if getRetryResize g r ≤ 0 then (false, [])
  else if getRetryResize g r < (i : Int) then (false, [])
  else (true, [if 0 < i then getDelayRepeatResize g r i else 0])

/-- runRetry loop of lines 224 to 233, started at iteration i: run the
body, ask retryResized whether to repeat, accumulate the adoption calls
performed.  The body is indexed by its execution count, so that a body
whose result changes between executions (as a Go closure can) is
expressible.  The loop terminates because retryResized refuses once the
iteration index passes the effective retry maximum. -/
def runRetryFrom (g : Globals) (r : Env) (body : Nat → Option Err) (i : Nat) :
    Option Err × List Int :=
  if h : (retryResized g r i (body i)).fst = true then
    let rest := runRetryFrom g r body (i + 1)
    (rest.fst, (retryResized g r i (body i)).snd ++ rest.snd)
  else
    (body i, (retryResized g r i (body i)).snd)
termination_by (getRetryResize g r).toNat + 1 - i
decreasing_by
  unfold retryResized at h
  split at h
  · simp at h
  · split at h
    · simp at h
    · split at h
      · simp at h
      · omega

/-- runRetry (lines 224 to 233): the loop from i = 0.  Returns the final
error together with the delays of the map-size adoption calls performed,
in order. -/
def runRetry (g : Globals) (r : Env) (body : Nat → Option Err) :
    Option Err × List Int :=
  runRetryFrom g r body 0

/-- Delays of the adoption calls an always-failing run performs from
iteration i on, for n further iterations: zero at iteration 0, the
configured delay function at every later iteration. -/
def delaysFrom (g : Globals) (r : Env) : Nat → Nat → List Int
  | _, 0 => []
  | i, n + 1 =>
      (if 0 < i then getDelayRepeatResize g r i else 0) :: delaysFrom g r (i + 1) n

/-- State of the txnlock write side together with the log of sizes handed
to the underlying engine call r.Env.SetMapSize. -/
structure MapSizeState where
  txnlockHeld : Bool
  engineSetMapSizeArgs : List Int
deriving DecidableEq

/-- Outcome of a call in the single-caller lock model: the call returns
with a Go error and a final state, or it is blocked forever acquiring the
txnlock (sync.RWMutex is not reentrant, and with a single caller nobody
can release it), recording the state at the moment of blocking. -/
inductive Outcome where
  | done (err : Option Err) (s : MapSizeState)
  | blocked (s : MapSizeState)
deriving DecidableEq

/-- txnlock.Lock() for a single caller: acquires when free, blocks forever
when already held. -/
def lockW (s : MapSizeState) : Option MapSizeState :=
  if s.txnlockHeld then none else some { s with txnlockHeld := true }

/-- txnlock.Unlock(). -/
def unlockW (s : MapSizeState) : MapSizeState :=
  { s with txnlockHeld := false }

/-- setMapSize, the internal helper (lines 160 to 171): takes
txnlock.Lock, sleeps delay while holding it when delay is positive, calls
r.Env.SetMapSize(0) — the literal sentinel 0 of line 168, the size
argument of the helper is not used — and unlocks.  The engine call is
modelled as recording its argument and succeeding. -/
def setMapSize (s : MapSizeState) (size : Int) (delay : Int) : Outcome :=
  match lockW s with
  | none => Outcome.blocked s
  | some s1 =>
      Outcome.done none
        (unlockW { s1 with
          engineSetMapSizeArgs := s1.engineSetMapSizeArgs ++ [(0 : Int)] })

/-- SetMapSize, the public proxy (lines 153 to 158): takes txnlock.Lock,
then calls the internal setMapSize(size, 0), which attempts to take
txnlock.Lock a second time before the outer hold is released.  A blocked
inner call leaves the whole call blocked. -/
def SetMapSize (s : MapSizeState) (size : Int) : Outcome :=
  match lockW s with
  | none => Outcome.blocked s
  | some s1 =>
      match setMapSize s1 size 0 with
      | Outcome.blocked s2 => Outcome.blocked s2
      | Outcome.done err s2 => Outcome.done err (unlockW s2)

/-- Modelled from the spec: the engine flag bit that disables internal
locking (lmdb.NoLock; the lmdb package is not part of this repository).
The value is the MDB_NOLOCK bit of the C library; only its being one
fixed nonzero bit matters here. -/
def NoLock : Nat := 0x400000

/-- Open (lines 105 to 117): delegates to the engine, whose result is the
engineResult parameter (the path and mode arguments feed only that call
and are absorbed into it).  On failure the error is returned with no
state update; on success noLock is set when the NoLock bit of flags is
set. -/
def Open (r : Env) (flags : Nat) (engineResult : Option Err) :
    Option Err × Env :=
  match engineResult with
  | some e => (some e, r)
  | none => (none, if flags &&& NoLock ≠ 0 then { r with noLock := true } else r)

/-- SetFlags (lines 121 to 133): same shape as Open; on success noLock is
set when the NoLock bit of flags is set. -/
def SetFlags (r : Env) (flags : Nat) (engineResult : Option Err) :
    Option Err × Env :=
  match engineResult with
  | some e => (some e, r)
  | none => (none, if flags &&& NoLock ≠ 0 then { r with noLock := true } else r)

/-- UnsetFlags (lines 137 to 149): on success noLock is cleared when the
NoLock bit of flags is set. -/
def UnsetFlags (r : Env) (flags : Nat) (engineResult : Option Err) :
    Option Err × Env :=
  match engineResult with
  | some e => (some e, r)
  | none => (none, if flags &&& NoLock ≠ 0 then { r with noLock := false } else r)

/-- Lock modes of the txnlock. -/
inductive LockMode where
  | shared
  | exclusive
deriving DecidableEq

/-- Operations dispatched through the txnlock: a transaction with its
declared readonly intent, or a map-size change. -/
inductive OpKind where
  | txn (readonly : Bool)
  | mapSizeChange
deriving DecidableEq

/-- Lock mode taken for a dispatched operation, computed from the noLock
value read immediately before acquisition: run (lines 235 to 247) takes
the write lock exactly when noLock is set and the transaction is not
readonly, the read lock otherwise; setMapSize (line 161) always takes the
write lock. -/
def dispatchLockMode (noLock : Bool) : OpKind → LockMode
  | OpKind.txn readonly =>
      if noLock && !readonly then LockMode.exclusive else LockMode.shared
  | OpKind.mapSizeChange => LockMode.exclusive

/-! Helper lemmas about retryResized and one-step unfoldings of the loop. -/

/-- retryResized refuses any error that is not the map-resized failure and
performs no adoption for it (line 264). -/
theorem retryResized_not_resized (g : Globals) (r : Env) (i : Nat)
    (err : Option Err) (h : IsMapResized err = false) :
    retryResized g r i err = (false, []) := by
  unfold retryResized
  rw [if_pos h]

/-- retryResized refuses when the effective retry maximum is not positive
(line 271) and performs no adoption. -/
theorem retryResized_nonpos (g : Globals) (r : Env) (i : Nat)
    (h : getRetryResize g r ≤ 0) :
    retryResized g r i (some Err.mapResized) = (false, []) := by
  unfold retryResized
  rw [if_neg (by decide), if_pos h]

/-- retryResized refuses when the iteration index has passed the effective
retry maximum (line 274) and performs no adoption. -/
theorem retryResized_exhausted (g : Globals) (r : Env) (i : Nat)
    (h : getRetryResize g r < (i : Int)) :
    retryResized g r i (some Err.mapResized) = (false, []) := by
  unfold retryResized
  rw [if_neg (by decide)]
  by_cases h0 : getRetryResize g r ≤ 0
  · rw [if_pos h0]
  · rw [if_neg h0, if_pos h]

/-- retryResized retries a map-resized failure while the iteration index
has not passed the positive effective retry maximum, performing one
adoption whose delay is zero at iteration 0 and the configured delay at
every later iteration. -/
theorem retryResized_retry (g : Globals) (r : Env) (i : Nat)
    (h0 : 0 < getRetryResize g r) (h1 : (i : Int) ≤ getRetryResize g r) :
    retryResized g r i (some Err.mapResized) =
      (true, [if 0 < i then getDelayRepeatResize g r i else 0]) := by
  unfold retryResized
  rw [if_neg (by decide), if_neg (by omega), if_neg (by omega)]

/-- One refused step of the loop: when retryResized declines, the loop
returns the body result of the current iteration together with the
adoptions of that retryResized call. -/
theorem runRetryFrom_stop (g : Globals) (r : Env) (body : Nat → Option Err)
    (i : Nat) (h : (retryResized g r i (body i)).fst = false) :
    runRetryFrom g r body i = (body i, (retryResized g r i (body i)).snd) := by
  conv_lhs => unfold runRetryFrom
  rw [dif_neg (by simp [h])]

/-- One accepted step of the loop: when retryResized retries, the loop
result is that of the next iteration, with the adoptions of the current
retryResized call in front. -/
theorem runRetryFrom_step (g : Globals) (r : Env) (body : Nat → Option Err)
    (i : Nat) (h : (retryResized g r i (body i)).fst = true) :
    runRetryFrom g r body i =
      ((runRetryFrom g r body (i + 1)).fst,
        (retryResized g r i (body i)).snd ++ (runRetryFrom g r body (i + 1)).snd) := by
  conv_lhs => unfold runRetryFrom
  rw [dif_pos h]

/-- Trace of an always-failing body: from iteration i with n iterations
left before the index passes the effective maximum, the loop returns the
map-resized failure after performing exactly the adoptions delaysFrom
describes. -/
theorem runRetryFrom_always_resized (g : Globals) (r : Env)
    (body : Nat → Option Err) (hfail : ∀ j, body j = some Err.mapResized)
    (hmax : 0 < getRetryResize g r) :
    ∀ n i, (getRetryResize g r).toNat + 1 - i = n →
      runRetryFrom g r body i = (some Err.mapResized, delaysFrom g r i n) := by
  intro n
  induction n with
  | zero =>
      intro i hi
      have hlt : getRetryResize g r < (i : Int) := by omega
      have hr : retryResized g r i (body i) = (false, []) := by
        rw [hfail i]
        exact retryResized_exhausted g r i hlt
      rw [runRetryFrom_stop g r body i (by rw [hr]), hr, hfail i]
      rfl
  | succ n ih =>
      intro i hi
      have hle : (i : Int) ≤ getRetryResize g r := by omega
      have hr : retryResized g r i (body i) =
          (true, [if 0 < i then getDelayRepeatResize g r i else 0]) := by
        rw [hfail i]
        exact retryResized_retry g r i hmax hle
      rw [runRetryFrom_step g r body i (by rw [hr]), ih (i + 1) (by omega), hr]
      rfl

/-- Trace of a body failing on its first k executions and succeeding on
the next, run with a positive effective maximum at least k: from any
iteration i with i + n = k, the loop ends in success after n further
adoptions. -/
theorem runRetryFrom_succeeds (g : Globals) (r : Env)
    (body : Nat → Option Err) (k : Nat)
    (hmax0 : 0 < getRetryResize g r) (hmaxk : (k : Int) ≤ getRetryResize g r)
    (hfail : ∀ j, j < k → body j = some Err.mapResized)
    (hsucc : body k = none) :
    ∀ n i, i + n = k →
      (runRetryFrom g r body i).fst = none ∧
        (runRetryFrom g r body i).snd.length = n := by
  intro n
  induction n with
  | zero =>
      intro i hi
      have hik : i = k := by omega
      subst hik
      have hr : retryResized g r i (body i) = (false, []) := by
        rw [hsucc]
        exact retryResized_not_resized g r i none rfl
      rw [runRetryFrom_stop g r body i (by rw [hr]), hr]
      exact ⟨hsucc, rfl⟩
  | succ n ih =>
      intro i hi
      have hb : body i = some Err.mapResized := hfail i (by omega)
      have hr : retryResized g r i (body i) =
          (true, [if 0 < i then getDelayRepeatResize g r i else 0]) := by
        rw [hb]
        exact retryResized_retry g r i hmax0 (by omega)
      rw [runRetryFrom_step g r body i (by rw [hr]), hr]
      have hrest := ih (i + 1) (by omega)
      refine ⟨hrest.1, ?_⟩
      simp [hrest.2]

/-! Claim theorems. -/

/-- C1.  The spec and the package comment on DefaultRetryResize (lines 45
to 46) promise indefinite retrying for a negative retry setting; the
guard of line 271 instead refuses to retry whenever the effective maximum
is not positive.  At the concrete failing input — RetryResize set to -1
and a body that returns the map-resized failure on its first five
executions and then succeeds — the run returns the map-resized failure
after the first execution with zero adoption calls, instead of eventually
succeeding. -/
theorem runRetry_negative_override_fails_immediately :
    runRetry stdGlobals ⟨-1, none, false⟩
        (fun n => if n < 5 then some Err.mapResized else none) =
      (some Err.mapResized, []) := by
  have h := runRetryFrom_stop stdGlobals ⟨-1, none, false⟩
    (fun n => if n < 5 then some Err.mapResized else none) 0 (by decide)
  exact h.trans (by decide)

/-- C2, counterexample.  With the RetryResize override exactly 0 the claim
says a first-execution map-resized failure is returned immediately with
zero adoption calls; in the code a zero override means unset, so the
process default 2 applies: the run retries, performs one adoption, and
returns success. -/
theorem runRetry_zero_override_counterexample :
    runRetry stdGlobals ⟨0, none, false⟩
        (fun n => if n = 0 then some Err.mapResized else none) = (none, [0]) ∧
      runRetry stdGlobals ⟨0, none, false⟩
        (fun n => if n = 0 then some Err.mapResized else none) ≠
        (some Err.mapResized, []) := by
  have h1 := runRetryFrom_step stdGlobals ⟨0, none, false⟩
    (fun n => if n = 0 then some Err.mapResized else none) 0 (by decide)
  have h2 := runRetryFrom_stop stdGlobals ⟨0, none, false⟩
    (fun n => if n = 0 then some Err.mapResized else none) 1 (by decide)
  have he : runRetry stdGlobals ⟨0, none, false⟩
      (fun n => if n = 0 then some Err.mapResized else none) = (none, [0]) := by
    show runRetryFrom stdGlobals ⟨0, none, false⟩
      (fun n => if n = 0 then some Err.mapResized else none) 0 = (none, [0])
    rw [h1, h2]
    decide
  exact ⟨he, by rw [he]; decide⟩

/-- C2, amended.  A zero RetryResize override means unset and leaves the
process-wide default in effect; the map-resized failure of the first
execution is returned immediately with zero adoption calls exactly when
the effective retry count — the override when nonzero, otherwise the
default — is not positive, for instance when the default is also zero. -/
theorem runRetry_zero_override_zero_default (g : Globals) (r : Env)
    (body : Nat → Option Err) (h0 : r.RetryResize = 0)
    (hd : g.DefaultRetryResize ≤ 0) (hb : body 0 = some Err.mapResized) :
    runRetry g r body = (some Err.mapResized, []) := by
  have hmax : getRetryResize g r ≤ 0 := by
    unfold getRetryResize
    rw [if_neg (by omega)]
    exact hd
  have hr : retryResized g r 0 (body 0) = (false, []) := by
    rw [hb]
    exact retryResized_nonpos g r 0 hmax
  show runRetryFrom g r body 0 = (some Err.mapResized, [])
  rw [runRetryFrom_stop g r body 0 (by rw [hr]), hr, hb]

/-- C2, witness for the amended claim at a concrete input: override 0,
process default 0, a body always returning the map-resized failure. -/
theorem runRetry_zero_override_zero_default_witness :
    (⟨0, none, false⟩ : Env).RetryResize = 0 ∧
      (⟨0, 1000000⟩ : Globals).DefaultRetryResize ≤ 0 ∧
      (fun _ : Nat => some Err.mapResized) 0 = some Err.mapResized ∧
      runRetry ⟨0, 1000000⟩ ⟨0, none, false⟩ (fun _ => some Err.mapResized) =
        (some Err.mapResized, []) :=
  ⟨rfl, by decide, rfl,
    runRetry_zero_override_zero_default ⟨0, 1000000⟩ ⟨0, none, false⟩
      (fun _ => some Err.mapResized) rfl (by decide) rfl⟩

/-- C3.  With RetryResize 3 and a body that always returns the map-resized
failure, the guard maxRetry < i of line 274 lets iterations 0, 1, 2 and 3
all adopt, so the run performs four adoption calls (delays 0 and then the
default three times) and runs the body five times before surfacing the
failure — not the three adoptions the spec and the package comment of
lines 49 to 50 describe. -/
theorem runRetry_maxRetry3_four_adoptions :
    runRetry stdGlobals ⟨3, none, false⟩ (fun _ => some Err.mapResized) =
        (some Err.mapResized, [0, 1000000, 1000000, 1000000]) ∧
      (runRetry stdGlobals ⟨3, none, false⟩
        (fun _ => some Err.mapResized)).snd.length = 4 := by
  have h := runRetryFrom_always_resized stdGlobals ⟨3, none, false⟩
    (fun _ => some Err.mapResized) (fun _ => rfl) (by decide) 4 0 (by decide)
  have he : runRetry stdGlobals ⟨3, none, false⟩ (fun _ => some Err.mapResized) =
      (some Err.mapResized, [0, 1000000, 1000000, 1000000]) := h.trans (by decide)
  exact ⟨he, by rw [he]; rfl⟩

/-- C4.  The public SetMapSize takes the txnlock and then calls the
internal helper, which attempts to take the same non-reentrant lock again
before the first hold is released: from any state in which the lock is
free, the call blocks forever at the inner acquisition, with the lock
held and the engine set-map-size log unchanged — the engine call is never
reached and the call never returns. -/
theorem SetMapSize_deadlocks (s : MapSizeState) (size : Int)
    (h : s.txnlockHeld = false) :
    SetMapSize s size = Outcome.blocked { s with txnlockHeld := true } := by
  obtain ⟨tl, log⟩ := s
  have hl : tl = false := h
  subst hl
  rfl

/-- C4, witness at a concrete input: a free lock and size 1024. -/
theorem SetMapSize_deadlocks_witness :
    (⟨false, []⟩ : MapSizeState).txnlockHeld = false ∧
      SetMapSize ⟨false, []⟩ 1024 = Outcome.blocked ⟨true, []⟩ :=
  ⟨rfl, SetMapSize_deadlocks ⟨false, []⟩ 1024 rfl⟩

/-- C5.  The internal map-size helper ignores its size argument and hands
the underlying engine the sentinel 0 (line 168): from any state with the
lock free, for every size and delay, the call succeeds and appends 0 —
never the caller-supplied size — to the engine set-map-size log, the
right-hand side being independent of the size argument. -/
theorem setMapSize_passes_zero (s : MapSizeState) (size : Int) (delay : Int)
    (h : s.txnlockHeld = false) :
    setMapSize s size delay =
      Outcome.done none
        { s with engineSetMapSizeArgs := s.engineSetMapSizeArgs ++ [(0 : Int)] } := by
  obtain ⟨tl, log⟩ := s
  have hl : tl = false := h
  subst hl
  rfl

/-- C5, witness at a concrete input: a free lock, size 4096, delay 7. -/
theorem setMapSize_passes_zero_witness :
    (⟨false, []⟩ : MapSizeState).txnlockHeld = false ∧
      setMapSize ⟨false, []⟩ 4096 7 = Outcome.done none ⟨false, [0]⟩ :=
  ⟨rfl, setMapSize_passes_zero ⟨false, []⟩ 4096 7 rfl⟩

/-- C6.  With RetryResize k + 1 and a body returning the map-resized
failure on exactly its first k executions and then succeeding, the run
returns success having performed exactly k map-size-adoption calls. -/
theorem runRetry_k_failures_then_success (k : Nat) (g : Globals) (r : Env)
    (body : Nat → Option Err) (hr : r.RetryResize = (k : Int) + 1)
    (hfail : ∀ j, j < k → body j = some Err.mapResized)
    (hsucc : body k = none) :
    (runRetry g r body).fst = none ∧ (runRetry g r body).snd.length = k := by
  have hg : getRetryResize g r = (k : Int) + 1 := by
    unfold getRetryResize
    rw [if_pos (by omega), hr]
  exact runRetryFrom_succeeds g r body k (by omega) (by omega) hfail hsucc k 0
    (by omega)

/-- C6, witness at a concrete input: k = 2, RetryResize 3, a body failing
on executions 0 and 1 and succeeding on execution 2. -/
theorem runRetry_k_failures_then_success_witness :
    (⟨3, none, false⟩ : Env).RetryResize = ((2 : Nat) : Int) + 1 ∧
      (∀ j, j < 2 →
        (fun n => if n < 2 then some Err.mapResized else none) j =
          some Err.mapResized) ∧
      (fun n => if n < 2 then some Err.mapResized else none) 2 = none ∧
      (runRetry stdGlobals ⟨3, none, false⟩
        (fun n => if n < 2 then some Err.mapResized else none)).fst = none ∧
      (runRetry stdGlobals ⟨3, none, false⟩
        (fun n => if n < 2 then some Err.mapResized else none)).snd.length = 2 :=
  ⟨by decide, by decide, rfl,
    runRetry_k_failures_then_success 2 stdGlobals ⟨3, none, false⟩
      (fun n => if n < 2 then some Err.mapResized else none) (by decide)
      (by decide) rfl⟩

/-- C7.  Each of the three flag-changing proxies returns a failing engine
result unchanged and leaves the environment — its noLock state included —
exactly as it was. -/
theorem flag_ops_failure_preserves_noLock (r : Env) (flags : Nat) (e : Err) :
    Open r flags (some e) = (some e, r) ∧
      SetFlags r flags (some e) = (some e, r) ∧
      UnsetFlags r flags (some e) = (some e, r) :=
  ⟨rfl, rfl, rfl⟩

/-- C8.  The exclusive mode of the txnlock is taken exactly for a map-size
change or for a read-write transaction dispatched while noLock is set;
in every other case — the only other lock mode — the shared mode is
taken. -/
theorem dispatchLockMode_exclusive_iff (noLock : Bool) (op : OpKind) :
    dispatchLockMode noLock op = LockMode.exclusive ↔
      (op = OpKind.mapSizeChange ∨ (op = OpKind.txn false ∧ noLock = true)) := by
  cases op with
  | txn readonly => cases readonly <;> cases noLock <;> simp [dispatchLockMode]
  | mapSizeChange => simp [dispatchLockMode]

/-- C9.  A first-execution failure that is not the map-resized failure is
returned to the caller at once, with its identity intact, and no adoption
call is performed. -/
theorem runRetry_other_error_immediate (g : Globals) (r : Env)
    (body : Nat → Option Err) (e : Err) (hb : body 0 = some e)
    (hne : e ≠ Err.mapResized) :
    runRetry g r body = (some e, []) := by
  have hm : IsMapResized (some e) = false := by
    cases e with
    | mapResized => exact absurd rfl hne
    | other c => rfl
  have hr : retryResized g r 0 (body 0) = (false, []) := by
    rw [hb]
    exact retryResized_not_resized g r 0 (some e) hm
  show runRetryFrom g r body 0 = (some e, [])
  rw [runRetryFrom_stop g r body 0 (by rw [hr]), hr, hb]

/-- C9, witness at a concrete input: a body always returning the ordinary
failure with code 17. -/
theorem runRetry_other_error_immediate_witness :
    (fun _ : Nat => some (Err.other 17)) 0 = some (Err.other 17) ∧
      Err.other 17 ≠ Err.mapResized ∧
      runRetry stdGlobals ⟨2, none, false⟩ (fun _ => some (Err.other 17)) =
        (some (Err.other 17), []) :=
  ⟨rfl, by decide,
    runRetry_other_error_immediate stdGlobals ⟨2, none, false⟩
      (fun _ => some (Err.other 17)) (Err.other 17) rfl (by decide)⟩

/-- C10.  On the model with the call of line 280 applied to the attempt
index as the signature of line 256 declares (the source passes no
argument there, which Go rejects), the adoption after the first failed
execution uses delay 0 and the adoption after the failed execution at
attempt index i uses the override applied to i: with RetryResize 2 and
the override i maps to 1000 i, an always-failing body yields adoptions
with delays 0, 1000 and 2000. -/
theorem runRetry_delay_schedule :
    runRetry stdGlobals ⟨2, some (fun i => 1000 * (i : Int)), false⟩
        (fun _ => some Err.mapResized) =
      (some Err.mapResized, [0, 1000, 2000]) := by
  have h := runRetryFrom_always_resized stdGlobals
    ⟨2, some (fun i => 1000 * (i : Int)), false⟩
    (fun _ => some Err.mapResized) (fun _ => rfl) (by decide) 3 0 (by decide)
  exact h.trans (by decide)

end Lmdbsync
